import Mathlib

/-!
Shallow embedding of the serial-term-rpc core (src/lib.rs): the hex-escape
codec parse_str_to_serial and the SerialPort session manager, with the
external OS serial capability modelled as explicit outcome parameters.
-/

namespace SerialTermRpc

/-! Constants from src/lib.rs. -/

def SERIAL_READ_BUFFER_SIZE : Nat := 32

def SERIAL_OPEN_TIMEOUT_MS : Nat := 10

def CHAR_0_AS_U32 : Nat := 48

def CHAR_9_AS_U32 : Nat := 57

def CHAR_A_AS_U32 : Nat := 65

def CHAR_F_AS_U32 : Nat := 70

/-- Model of char::from_u32: some exactly when the code point is a valid
Unicode scalar value. -/
def char_from_u32 (n : Nat) : Option Char :=
  if h : n.isValidChar then some (Char.ofNatAux n h) else none

/-- The repeated two-branch digit test of parse_str_to_serial, one per digit
position of the window: first component is the net effect on is_hex, second
the value added to hex_int before the shift that the caller applies.
A failed test leaves hex_int untouched, hence the 0. -/
def hexDigitVal (w : Nat) : Bool × Nat :=
  if CHAR_0_AS_U32 ≤ w && w ≤ CHAR_9_AS_U32 then (true, w - CHAR_0_AS_U32)
  else if CHAR_A_AS_U32 ≤ w && w ≤ CHAR_F_AS_U32 then (true, w - CHAR_A_AS_U32)
  else (false, 0)

/-- One iteration of the window loop body of parse_str_to_serial on the
window [c0, c1, c2, c3]: some c when the iteration ends with is_hex true and
hex_c = c (the escape is consumed), none when the head character is to be
copied. The source's hex_c variable persists across iterations but is
reassigned before every push guarded by is_hex, so it carries no state. -/
def windowStep (c0 c1 c2 c3 : Char) : Option Char :=
  if c0 = '0' && (c1 = 'X' || c1 = 'x') then
    let d2 := hexDigitVal c2.toNat
    let d3 := hexDigitVal c3.toNat
    let hex_int := (d2.2 <<< 4) + d3.2
    match char_from_u32 hex_int with
    | some hex_c => if d2.1 && d3.1 then some hex_c else none
    | none => none
  else none

/-- The windows(4) loop of parse_str_to_serial: on a match the decoded char
is pushed and nth(2) consumes the next three windows without yielding them
(the skip counter here), so iteration continues after the whole escape, or
stops when the iterator runs out mid-skip; on no match the window head is
pushed and the window slides by one. A window exists only while at least
four characters remain. -/
def parseWindows (skip : Nat) (l : List Char) : List Char :=
  match l with
  | c0 :: t =>
    match t with
    | c1 :: c2 :: c3 :: _ =>
      match skip with
      | k + 1 => parseWindows k t
      | 0 =>
        match windowStep c0 c1 c2 c3 with
        | some hex_c => hex_c :: parseWindows 3 t
        | none => c0 :: parseWindows 0 t
    | _ => []
  | [] => []

/-- parse_str_to_serial from src/lib.rs. The source's early return tests
s.len(), the UTF-8 byte length of the string, while the windows run over
s.chars(). -/
def parse_str_to_serial (s : String) : String :=
  if s.utf8ByteSize < 4 then s
  else String.mk (parseWindows 0 s.toList)

/-! UTF-8, as exposed by str::as_bytes on the send path and by
String::from_utf8_lossy on the read path. -/

/-- Standard UTF-8 encoding of one character, byte values as Nat. -/
def utf8EncodeCharNat (c : Char) : List Nat :=
  let n := c.toNat
  if n < 0x80 then [n]
  else if n < 0x800 then [0xC0 + n / 64, 0x80 + n % 64]
  else if n < 0x10000 then [0xE0 + n / 4096, 0x80 + n / 64 % 64, 0x80 + n % 64]
  else [0xF0 + n / 262144, 0x80 + n / 4096 % 64, 0x80 + n / 64 % 64, 0x80 + n % 64]

/-- The byte sequence str::as_bytes exposes for a string. -/
def strBytes (s : String) : List Nat :=
  (s.toList.map utf8EncodeCharNat).flatten

def REPLACEMENT_CHARACTER : Char := '�'

def isUtf8Cont (b : Nat) : Bool := 0x80 ≤ b && b ≤ 0xBF

/-- Admissible second byte of a three-byte sequence headed by b0, per the
core str validation (excludes overlong forms and surrogates). -/
def utf8Cont3Ok (b0 b1 : Nat) : Bool :=
  if b0 = 0xE0 then 0xA0 ≤ b1 && b1 ≤ 0xBF
  else if b0 = 0xED then 0x80 ≤ b1 && b1 ≤ 0x9F
  else isUtf8Cont b1

/-- Admissible second byte of a four-byte sequence headed by b0. -/
def utf8Cont4Ok (b0 b1 : Nat) : Bool :=
  if b0 = 0xF0 then 0x90 ≤ b1 && b1 ≤ 0xBF
  else if b0 = 0xF4 then 0x80 ≤ b1 && b1 ≤ 0x8F
  else isUtf8Cont b1

/-- One step of lossy UTF-8 decoding at head byte b0 with remaining input
rest: the decoded character (the replacement character on any invalid or
truncated sequence) and how many bytes of rest the step consumes, following
the maximal-subpart substitution String::from_utf8_lossy performs. -/
def utf8DecodeStep (b0 : Nat) (rest : List Nat) : Char × Nat :=
  if b0 < 0x80 then (Char.ofNat b0, 0)
  else if 0xC2 ≤ b0 && b0 ≤ 0xDF then
    match rest with
    | b1 :: _ =>
      if isUtf8Cont b1 then (Char.ofNat ((b0 - 0xC0) * 64 + (b1 - 0x80)), 1)
      else (REPLACEMENT_CHARACTER, 0)
    | [] => (REPLACEMENT_CHARACTER, 0)
  else if 0xE0 ≤ b0 && b0 ≤ 0xEF then
    match rest with
    | b1 :: b2 :: _ =>
      if utf8Cont3Ok b0 b1 then
        if isUtf8Cont b2 then
          (Char.ofNat ((b0 - 0xE0) * 4096 + (b1 - 0x80) * 64 + (b2 - 0x80)), 2)
        else (REPLACEMENT_CHARACTER, 1)
      else (REPLACEMENT_CHARACTER, 0)
    | [b1] =>
      if utf8Cont3Ok b0 b1 then (REPLACEMENT_CHARACTER, 1)
      else (REPLACEMENT_CHARACTER, 0)
    | [] => (REPLACEMENT_CHARACTER, 0)
  else if 0xF0 ≤ b0 && b0 ≤ 0xF4 then
    match rest with
    | b1 :: b2 :: b3 :: _ =>
      if utf8Cont4Ok b0 b1 then
        if isUtf8Cont b2 then
          if isUtf8Cont b3 then
            (Char.ofNat
              ((b0 - 0xF0) * 262144 + (b1 - 0x80) * 4096 + (b2 - 0x80) * 64 + (b3 - 0x80)), 3)
          else (REPLACEMENT_CHARACTER, 2)
        else (REPLACEMENT_CHARACTER, 1)
      else (REPLACEMENT_CHARACTER, 0)
    | [b1, b2] =>
      if utf8Cont4Ok b0 b1 then
        if isUtf8Cont b2 then (REPLACEMENT_CHARACTER, 2)
        else (REPLACEMENT_CHARACTER, 1)
      else (REPLACEMENT_CHARACTER, 0)
    | [b1] =>
      if utf8Cont4Ok b0 b1 then (REPLACEMENT_CHARACTER, 1)
      else (REPLACEMENT_CHARACTER, 0)
    | [] => (REPLACEMENT_CHARACTER, 0)
  else (REPLACEMENT_CHARACTER, 0)

/-- Lossy UTF-8 decoding loop: each step decodes via utf8DecodeStep and
continues past the bytes it consumed. The fuel argument only bounds the
iteration count; every step consumes at least the head byte, so a fuel of
the input length never runs out. -/
def utf8DecodeLossyAux (fuel : Nat) (l : List Nat) : List Char :=
  match fuel, l with
  | _, [] => []
  | 0, _ :: _ => []
  | f + 1, b0 :: rest =>
    let step := utf8DecodeStep b0 rest
    step.1 :: utf8DecodeLossyAux f (rest.drop step.2)

/-- String::from_utf8_lossy over a byte list: total, substituting the
replacement character for invalid input instead of failing. -/
def utf8DecodeLossy (l : List Nat) : List Char :=
  utf8DecodeLossyAux l.length l

/-! The SerialPort session manager. The external OS serial capability is
modelled by explicit outcome parameters: what the device call would have
returned. -/

structure SerialPortResponse where
  success : Bool
  content : String
deriving DecidableEq

/-- A live device capability as consumed by the manager: the name and
baud-rate queries it answers while open (none models a failing query). -/
structure DeviceHandle where
  name : Option String
  baudRate : Option Nat
deriving DecidableEq

/-- The session manager state: zero or one open device handle. -/
structure SerialPort where
  port : Option DeviceHandle
deriving DecidableEq

def SerialPort.new : SerialPort := ⟨none⟩

/-- Result of the OS open call. -/
inductive OpenOutcome
  | ok (handle : DeviceHandle)
  | err
deriving DecidableEq

/-- Result of a device write: count written, or a timeout, or another error
carrying its display text. -/
inductive WriteOutcome
  | ok (count : Nat)
  | timedOut
  | err (msg : String)
deriving DecidableEq

/-- Result of a device read: the bytes the device delivers into the buffer,
or a timeout, or another error carrying its display text. -/
inductive ReadOutcome
  | ok (data : List Nat)
  | timedOut
  | err (msg : String)
deriving DecidableEq

/-- Result of the OS port enumeration: the discovered port names in order,
or a failure. -/
inductive EnumOutcome
  | ok (ports : List String)
  | err
deriving DecidableEq

/-- open_port from src/lib.rs. The final component records whether an OS
open of the device was attempted. -/
def SerialPort.open_port (self : SerialPort) (port_path : String) (baudrate : Nat)
    (dev : OpenOutcome) : SerialPort × SerialPortResponse × Bool :=
  match self.port, port_path, baudrate with
  | some _, _, _ => (self, ⟨false, "A port is already open"⟩, false)
  | none, _, _ =>
    match dev with
    | .ok handle =>
      let port_path := match handle.name with
        | some name => name
        | none => "default"
      let baudrate := match handle.baudRate with
        | some b => b
        | none => 0
      (⟨some handle⟩,
        ⟨true, "Openend port " ++ port_path ++ " with a baudrate of " ++ toString baudrate⟩,
        true)
    | .err => (self, ⟨false, "Could not open the port"⟩, true)

/-- close_port from src/lib.rs. -/
def SerialPort.close_port (self : SerialPort) : SerialPort × SerialPortResponse :=
  match self.port with
  | some port =>
    let port_path := match port.name with
      | some name => name
      | none => "default"
    (⟨none⟩, ⟨true, "Port " ++ port_path ++ " closed"⟩)
  | none => (self, ⟨false, "No port is currently open"⟩)

/-- send_once from src/lib.rs. The final component is the byte sequence
offered to the device write, none when no device write was attempted. -/
def SerialPort.send_once (self : SerialPort) (message : String)
    (dev : WriteOutcome) : SerialPort × SerialPortResponse × Option (List Nat) :=
  let output := parse_str_to_serial message
  let outputBytes := strBytes output
  match self.port with
  | some _ =>
    match dev with
    | .ok _ => (self, ⟨true, "Request sent"⟩, some outputBytes)
    | .timedOut => (self, ⟨false, "Serial write timed out"⟩, some outputBytes)
    | .err e => (self, ⟨false, "Serial write error: " ++ e⟩, some outputBytes)
  | none => (self, ⟨false, "No port is currently open"⟩, none)

/-- read_once from src/lib.rs: a zeroed buffer of SERIAL_READ_BUFFER_SIZE
bytes, the device fills its first t positions, and exactly the slice up to t
is decoded lossily into the response content. -/
def SerialPort.read_once (self : SerialPort) (dev : ReadOutcome) :
    SerialPort × SerialPortResponse :=
  match self.port with
  | some _ =>
    let serial_buf : List Nat := List.replicate SERIAL_READ_BUFFER_SIZE 0
    match dev with
    | .ok data =>
      let filled := data.take serial_buf.length
      let t := filled.length
      let buf := filled ++ serial_buf.drop t
      let content := String.mk (utf8DecodeLossy (buf.take t))
      (self, ⟨true, content⟩)
    | .timedOut => (self, ⟨false, "Serial read timed out"⟩)
    | .err e => (self, ⟨false, "Serial read error: " ++ e⟩)
  | none => (self, ⟨false, "No port is currently open"⟩)

/-- get_available_port_names from src/lib.rs; the fold mirrors the loop
pushing each discovered port name in order. -/
def SerialPort.get_available_port_names (dev : EnumOutcome) : List String :=
  match dev with
  | .err => ["No ports available"]
  | .ok ports =>
    if ports.isEmpty then ["No ports available"]
    else ports.foldl (fun acc p => acc ++ [p]) []

/-! Helper lemmas. -/

lemma foldl_push_eq (l : List String) :
    ∀ acc, l.foldl (fun acc p => acc ++ [p]) acc = acc ++ l := by
  induction l with
  | nil => intro acc; simp
  | cons p t ih => intro acc; simp [List.foldl, ih]

/-! Theorems for the claims. -/

/-- C1: an operation invoked in the wrong session state is rejected with
success false and a descriptive message, without changing the port field and
without attempting any device access: open_port while a port is open, and
close_port, send_once and read_once while none is. -/
theorem c1_wrong_state_rejected :
    ∀ (self : SerialPort) (hdl : DeviceHandle) (port_path : String) (baudrate : Nat)
      (odev : OpenOutcome) (wdev : WriteOutcome) (rdev : ReadOutcome) (message : String),
    (self.port = some hdl →
      self.open_port port_path baudrate odev = (self, ⟨false, "A port is already open"⟩, false))
    ∧ (self.port = none →
      self.close_port = (self, ⟨false, "No port is currently open"⟩))
    ∧ (self.port = none →
      self.send_once message wdev = (self, ⟨false, "No port is currently open"⟩, none))
    ∧ (self.port = none →
      self.read_once rdev = (self, ⟨false, "No port is currently open"⟩)) := by
  rintro ⟨p⟩ hdl port_path baudrate odev wdev rdev message
  refine ⟨fun h => ?_, fun h => ?_, fun h => ?_, fun h => ?_⟩ <;>
    obtain rfl : p = _ := h <;> rfl

theorem c1_wrong_state_rejected_witness :
    (SerialPort.open_port ⟨some ⟨some "COM1", some 9600⟩⟩ "COM1" 9600 .err
      = (⟨some ⟨some "COM1", some 9600⟩⟩, ⟨false, "A port is already open"⟩, false))
    ∧ (SerialPort.close_port ⟨none⟩ = (⟨none⟩, ⟨false, "No port is currently open"⟩))
    ∧ (SerialPort.send_once ⟨none⟩ "hello" .timedOut
      = (⟨none⟩, ⟨false, "No port is currently open"⟩, none))
    ∧ (SerialPort.read_once ⟨none⟩ .timedOut
      = (⟨none⟩, ⟨false, "No port is currently open"⟩)) :=
  ⟨(c1_wrong_state_rejected ⟨some ⟨some "COM1", some 9600⟩⟩ ⟨some "COM1", some 9600⟩
      "COM1" 9600 .err .timedOut .timedOut "hello").1 rfl,
   (c1_wrong_state_rejected ⟨none⟩ ⟨none, none⟩ "COM1" 9600 .err .timedOut .timedOut
      "hello").2.1 rfl,
   (c1_wrong_state_rejected ⟨none⟩ ⟨none, none⟩ "COM1" 9600 .err .timedOut .timedOut
      "hello").2.2.1 rfl,
   (c1_wrong_state_rejected ⟨none⟩ ⟨none, none⟩ "COM1" 9600 .err .timedOut .timedOut
      "hello").2.2.2 rfl⟩

/-- C6: with a port open, send_once encodes its argument with
parse_str_to_serial, offers exactly those UTF-8 bytes to the device write,
and classifies the outcome three ways with the exact messages of the
source; the other-error message carries the underlying error text. -/
theorem c6_send_classification :
    ∀ (self : SerialPort) (hdl : DeviceHandle) (message : String) (count : Nat) (e : String),
    self.port = some hdl →
    self.send_once message (.ok count)
      = (self, ⟨true, "Request sent"⟩, some (strBytes (parse_str_to_serial message)))
    ∧ self.send_once message .timedOut
      = (self, ⟨false, "Serial write timed out"⟩, some (strBytes (parse_str_to_serial message)))
    ∧ self.send_once message (.err e)
      = (self, ⟨false, "Serial write error: " ++ e⟩, some (strBytes (parse_str_to_serial message))) := by
  rintro ⟨p⟩ hdl message count e h
  obtain rfl : p = some hdl := h
  exact ⟨rfl, rfl, rfl⟩

theorem c6_send_classification_witness :
    SerialPort.send_once ⟨some ⟨none, none⟩⟩ "0x41" (.ok 1)
      = (⟨some ⟨none, none⟩⟩, ⟨true, "Request sent"⟩, some [0x41])
    ∧ SerialPort.send_once ⟨some ⟨none, none⟩⟩ "0x41" .timedOut
      = (⟨some ⟨none, none⟩⟩, ⟨false, "Serial write timed out"⟩, some [0x41])
    ∧ SerialPort.send_once ⟨some ⟨none, none⟩⟩ "0x41" (.err "device gone")
      = (⟨some ⟨none, none⟩⟩, ⟨false, "Serial write error: device gone"⟩, some [0x41]) := by
  have h := c6_send_classification ⟨some ⟨none, none⟩⟩ ⟨none, none⟩ "0x41" 1 "device gone" rfl
  refine ⟨?_, ?_, ?_⟩
  · rw [h.1]; decide
  · rw [h.2.1]; decide
  · rw [h.2.2]; decide

/-- C8: with a port open, a failed send_once or read_once (timeout or other
device error) leaves the session state unchanged and the port open, and a
rejected open_port leaves the state unchanged as well: no failure closes or
resets the session. -/
theorem c8_failure_preserves_state :
    ∀ (self : SerialPort) (hdl : DeviceHandle) (message port_path : String)
      (baudrate : Nat) (odev : OpenOutcome) (e e2 : String),
    self.port = some hdl →
    (self.send_once message .timedOut).1 = self
    ∧ (self.send_once message (.err e)).1 = self
    ∧ (self.read_once .timedOut).1 = self
    ∧ (self.read_once (.err e2)).1 = self
    ∧ (self.open_port port_path baudrate odev).1 = self
    ∧ ((self.send_once message .timedOut).1).port = some hdl
    ∧ ((self.read_once (.err e2)).1).port = some hdl := by
  rintro ⟨p⟩ hdl message port_path baudrate odev e e2 h
  obtain rfl : p = some hdl := h
  exact ⟨rfl, rfl, rfl, rfl, rfl, rfl, rfl⟩

theorem c8_failure_preserves_state_witness :
    (SerialPort.send_once ⟨some ⟨some "COM1", some 9600⟩⟩ "hello" .timedOut).1
      = ⟨some ⟨some "COM1", some 9600⟩⟩
    ∧ (SerialPort.read_once ⟨some ⟨some "COM1", some 9600⟩⟩ (.err "broken")).1.port
      = some ⟨some "COM1", some 9600⟩ :=
  ⟨(c8_failure_preserves_state ⟨some ⟨some "COM1", some 9600⟩⟩ ⟨some "COM1", some 9600⟩
      "hello" "COM1" 9600 .err "boom" "broken" rfl).1,
   (c8_failure_preserves_state ⟨some ⟨some "COM1", some 9600⟩⟩ ⟨some "COM1", some 9600⟩
      "hello" "COM1" 9600 .err "boom" "broken" rfl).2.2.2.2.2.2⟩

/-- C9: get_available_port_names never yields an empty sequence: an
enumeration failure or an empty enumeration both give the single sentinel
element, and otherwise the enumerated names are returned in order. -/
theorem c9_list_ports_nonempty :
    ∀ (dev : EnumOutcome) (ports : List String),
    SerialPort.get_available_port_names dev ≠ []
    ∧ SerialPort.get_available_port_names .err = ["No ports available"]
    ∧ (ports = [] → SerialPort.get_available_port_names (.ok ports) = ["No ports available"])
    ∧ (ports ≠ [] → SerialPort.get_available_port_names (.ok ports) = ports) := by
  intro dev ports
  have hok : ∀ ps : List String, SerialPort.get_available_port_names (.ok ps)
      = if ps.isEmpty then ["No ports available"] else ps := by
    intro ps
    simp only [SerialPort.get_available_port_names]
    split
    · rfl
    · simpa using foldl_push_eq ps []
  refine ⟨?_, rfl, ?_, ?_⟩
  · cases dev with
    | err => simp [SerialPort.get_available_port_names]
    | ok ps =>
      rw [hok ps]
      split
      · simp
      · simp_all [List.isEmpty_iff]
  · intro h; subst h; rw [hok]; rfl
  · intro h; rw [hok]; simp [List.isEmpty_iff, h]

/-- C7: with a port open, read_once reads once into a buffer of exactly
SERIAL_READ_BUFFER_SIZE bytes, lossily decodes exactly the bytes actually
read (so at most the buffer size, with no accumulation and possibly none at
all), an invalid byte decodes to the replacement character rather than a
failure, and timeouts and other errors are classified three ways with the
exact source messages. -/
theorem c7_read_classification :
    ∀ (self : SerialPort) (hdl : DeviceHandle) (data : List Nat) (e : String),
    self.port = some hdl →
    (List.replicate SERIAL_READ_BUFFER_SIZE 0).length = 32
    ∧ self.read_once (.ok data)
      = (self, ⟨true, String.mk (utf8DecodeLossy (data.take SERIAL_READ_BUFFER_SIZE))⟩)
    ∧ (data.length ≤ SERIAL_READ_BUFFER_SIZE →
        self.read_once (.ok data) = (self, ⟨true, String.mk (utf8DecodeLossy data)⟩))
    ∧ self.read_once (.ok []) = (self, ⟨true, ""⟩)
    ∧ utf8DecodeLossy [0xFF] = [REPLACEMENT_CHARACTER]
    ∧ self.read_once .timedOut = (self, ⟨false, "Serial read timed out"⟩)
    ∧ self.read_once (.err e) = (self, ⟨false, "Serial read error: " ++ e⟩) := by
  rintro ⟨p⟩ hdl data e h
  obtain rfl : p = some hdl := h
  have hbuf : ∀ d : List Nat,
      SerialPort.read_once ⟨some hdl⟩ (.ok d)
        = (⟨some hdl⟩, ⟨true, String.mk (utf8DecodeLossy (d.take SERIAL_READ_BUFFER_SIZE))⟩) := by
    intro d
    simp only [SerialPort.read_once, List.length_replicate, List.take_left]
  refine ⟨by decide, hbuf data, fun hle => ?_, by rw [hbuf]; rfl, by decide, rfl, rfl⟩
  rw [hbuf data, List.take_of_length_le hle]

theorem c7_read_classification_witness :
    SerialPort.read_once ⟨some ⟨some "COM1", some 9600⟩⟩ (.ok [0x68, 0x69])
      = (⟨some ⟨some "COM1", some 9600⟩⟩, ⟨true, "hi"⟩)
    ∧ SerialPort.read_once ⟨some ⟨some "COM1", some 9600⟩⟩ .timedOut
      = (⟨some ⟨some "COM1", some 9600⟩⟩, ⟨false, "Serial read timed out"⟩) := by
  have h := c7_read_classification ⟨some ⟨some "COM1", some 9600⟩⟩ ⟨some "COM1", some 9600⟩
    [0x68, 0x69] "boom" rfl
  refine ⟨?_, h.2.2.2.2.2.1⟩
  rw [h.2.2.1 (by decide)]; decide

theorem c9_list_ports_nonempty_witness :
    SerialPort.get_available_port_names (.ok []) = ["No ports available"]
    ∧ SerialPort.get_available_port_names (.ok ["COM1", "COM2"]) = ["COM1", "COM2"] :=
  ⟨(c9_list_ports_nonempty (.ok []) []).2.2.1 rfl,
   (c9_list_ports_nonempty (.ok ["COM1", "COM2"]) ["COM1", "COM2"]).2.2.2 (by decide)⟩

/-! Codec helper definitions and lemmas. -/

/-- The digit alphabet the window test accepts: decimal digits and
upper-case A through F only. -/
def upperHexDigit (c : Char) : Bool :=
  (CHAR_0_AS_U32 ≤ c.toNat && c.toNat ≤ CHAR_9_AS_U32)
  || (CHAR_A_AS_U32 ≤ c.toNat && c.toNat ≤ CHAR_F_AS_U32)

/-- Whether any 4-character window of the list matches an escape. -/
def hasEscape (l : List Char) : Bool :=
  match l with
  | c0 :: t =>
    match t with
    | c1 :: c2 :: c3 :: _ => (windowStep c0 c1 c2 c3).isSome || hasEscape t
    | _ => false
  | [] => false

lemma hexDigitVal_fst (w : Nat) :
    (hexDigitVal w).1
      = ((CHAR_0_AS_U32 ≤ w && w ≤ CHAR_9_AS_U32)
        || (CHAR_A_AS_U32 ≤ w && w ≤ CHAR_F_AS_U32)) := by
  simp only [hexDigitVal]
  split
  · rename_i h; simp [h]
  · split
    · rename_i h; simp [h]
    · rename_i h1 h2; simp [h1, h2]

lemma hexDigitVal_snd_le (w : Nat) : (hexDigitVal w).2 ≤ 9 := by
  simp only [hexDigitVal, CHAR_0_AS_U32, CHAR_9_AS_U32, CHAR_A_AS_U32, CHAR_F_AS_U32]
  split
  · rename_i h; simp at h; omega
  · split
    · rename_i h; simp at h; omega
    · simp

lemma char_from_u32_small {n : Nat} (h : n < 0xD800) :
    ∃ c, char_from_u32 n = some c := by
  have hv : n.isValidChar := Or.inl h
  exact ⟨_, dif_pos hv⟩

lemma hexPair_le (c2 c3 : Char) :
    ((hexDigitVal c2.toNat).2 <<< 4) + (hexDigitVal c3.toNat).2 ≤ 153 := by
  have h2 := hexDigitVal_snd_le c2.toNat
  have h3 := hexDigitVal_snd_le c3.toNat
  have : (hexDigitVal c2.toNat).2 <<< 4 = (hexDigitVal c2.toNat).2 * 16 := by
    simp [Nat.shiftLeft_eq]
  omega

lemma windowStep_isSome_eq (c0 c1 c2 c3 : Char) :
    (windowStep c0 c1 c2 c3).isSome
      = (decide (c0 = '0') && (decide (c1 = 'x') || decide (c1 = 'X'))
        && upperHexDigit c2 && upperHexDigit c3) := by
  obtain ⟨c, hc⟩ := char_from_u32_small
    (Nat.lt_of_le_of_lt (hexPair_le c2 c3) (by norm_num))
  simp only [windowStep, hc, upperHexDigit, ← hexDigitVal_fst]
  by_cases h0 : c0 = '0' <;> by_cases hX : c1 = 'X' <;> by_cases hx : c1 = 'x' <;>
    simp [h0, hX, hx] <;>
    cases hd2 : (hexDigitVal c2.toNat).1 <;> cases hd3 : (hexDigitVal c3.toNat).1 <;>
    simp

lemma parseWindows_cons (c0 c1 c2 c3 : Char) (rest : List Char) :
    parseWindows 0 (c0 :: c1 :: c2 :: c3 :: rest)
      = match windowStep c0 c1 c2 c3 with
        | some hex_c => hex_c :: parseWindows 3 (c1 :: c2 :: c3 :: rest)
        | none => c0 :: parseWindows 0 (c1 :: c2 :: c3 :: rest) := rfl

lemma hasEscape_cons (c0 c1 c2 c3 : Char) (rest : List Char) :
    hasEscape (c0 :: c1 :: c2 :: c3 :: rest)
      = ((windowStep c0 c1 c2 c3).isSome || hasEscape (c1 :: c2 :: c3 :: rest)) := rfl

lemma parseWindows_no_escape (l : List Char) (h : hasEscape l = false) :
    parseWindows 0 l = l.take (l.length - 3) := by
  induction l with
  | nil => rfl
  | cons c0 t ih =>
    cases t with
    | nil => rfl
    | cons c1 t1 =>
      cases t1 with
      | nil => rfl
      | cons c2 t2 =>
        cases t2 with
        | nil => rfl
        | cons c3 rest =>
          rw [hasEscape_cons, Bool.or_eq_false_iff] at h
          have hw : windowStep c0 c1 c2 c3 = none :=
            Option.not_isSome_iff_eq_none.mp (by simp [h.1])
          have ht : hasEscape (c1 :: c2 :: c3 :: rest) = false := h.2
          rw [parseWindows_cons, hw, ih ht]
          have hlen : (c0 :: c1 :: c2 :: c3 :: rest).length - 3
              = ((c1 :: c2 :: c3 :: rest).length - 3) + 1 := by
            simp only [List.length_cons]; omega
          rw [hlen, List.take_succ_cons]

/-- C2 counterexample: a two-character input of multi-byte characters is not
returned unchanged; its UTF-8 byte length is 4, so the window loop runs over
its 2 characters and produces the empty string. -/
theorem c2_short_input_counterexample :
    parse_str_to_serial "éé" = "" ∧ "éé".length < 4 ∧ ("éé" : String) ≠ "" := by
  exact ⟨by decide, by decide, by decide⟩

/-- C2 amended: inputs of fewer than 4 UTF-8 bytes are returned unchanged
(such inputs may contain multi-byte characters), but an input of fewer than
4 characters whose byte length reaches 4 yields the empty string instead. -/
theorem c2_short_input_amended :
    ∀ s : String,
    (s.utf8ByteSize < 4 → parse_str_to_serial s = s)
    ∧ (s.length < 4 → 4 ≤ s.utf8ByteSize → parse_str_to_serial s = "") := by
  intro s
  constructor
  · intro h; simp [parse_str_to_serial, h]
  · intro hlen hbytes
    have h4 : ¬ s.utf8ByteSize < 4 := by omega
    simp only [parse_str_to_serial, h4, if_false]
    have hl : s.toList.length < 4 := hlen
    have : parseWindows 0 s.toList = [] := by
      cases htl : s.toList with
      | nil => rfl
      | cons a t =>
        rw [htl] at hl
        cases t with
        | nil => rfl
        | cons b t1 =>
          cases t1 with
          | nil => rfl
          | cons c t2 =>
            cases t2 with
            | nil => rfl
            | cons d t3 => simp at hl; omega
    rw [this]

theorem c2_short_input_amended_witness :
    parse_str_to_serial "ok" = "ok" ∧ parse_str_to_serial "éé" = "" :=
  ⟨(c2_short_input_amended "ok").1 (by decide),
   (c2_short_input_amended "éé").2 (by decide) (by decide)⟩

/-- C3 counterexample: the input 0x0a is not copied through unchanged; its
window fails the escape test (lower-case a), so only its head character is
emitted and the final three characters are dropped with the input exhausted. -/
theorem c3_lowercase_escape_counterexample :
    parse_str_to_serial "0x0a" ≠ "0x0a" ∧ parse_str_to_serial "0x0a" = "0" := by
  exact ⟨by decide, by decide⟩

/-- C3 amended: a window is an escape exactly when it is the character 0,
then x or X, then two characters each a decimal digit or upper-case A to F;
a lower-case hex digit fails the test and the window head is copied through
literally while the window slides on, as the longer input shows, but the
exact 4-character input 0x0a yields only its head, the character 0. -/
theorem c3_lowercase_escape_amended :
    ∀ c0 c1 c2 c3 : Char,
    ((windowStep c0 c1 c2 c3).isSome
      = (decide (c0 = '0') && (decide (c1 = 'x') || decide (c1 = 'X'))
        && upperHexDigit c2 && upperHexDigit c3))
    ∧ windowStep '0' 'x' '0' 'a' = none
    ∧ parse_str_to_serial "0x0aBBBB" = "0x0aB"
    ∧ parse_str_to_serial "0x0a" = "0" := by
  intro c0 c1 c2 c3
  exact ⟨windowStep_isSome_eq c0 c1 c2 c3, by decide, by decide, by decide⟩

/-- C4 counterexample: a 4-character non-matching input does not round-trip;
only its first character is emitted. -/
theorem c4_tail_counterexample :
    parse_str_to_serial "abcd" ≠ "abcd" ∧ parse_str_to_serial "abcd" = "a" := by
  exact ⟨by decide, by decide⟩

/-- C4 amended: window start indices run only up to length minus 4, and the
characters within 3 of the end that are not consumed by a matched escape are
dropped, not appended: an input none of whose windows match an escape
produces exactly the input minus its final three characters. -/
theorem c4_tail_amended :
    ∀ l : List Char,
    (hasEscape l = false → parseWindows 0 l = l.take (l.length - 3))
    ∧ parse_str_to_serial "abcd" = "a" := by
  intro l
  exact ⟨parseWindows_no_escape l, by decide⟩

theorem c4_tail_amended_witness :
    parseWindows 0 ['a', 'b', 'c', 'd'] = ['a'] := by
  have h := (c4_tail_amended ['a', 'b', 'c', 'd']).1 (by decide)
  simpa using h

/-- C5: the two digit-only examples of the claim hold, but a matched escape
whose digits include a letter is decoded to the wrong character: the source
maps A through F to 0 through 5 instead of 10 through 15, so 0x0A decodes to
the character 0 rather than code point 0x0A, and 0xFF to 0x55. -/
theorem c5_hex_decode :
    parse_str_to_serial "0x020x23" = "\x02#"
    ∧ parse_str_to_serial "0x02iii0x17ii0x03" = "\x02iii\x17ii\x03"
    ∧ parse_str_to_serial "0x0A" = "\x00"
    ∧ parse_str_to_serial "0x0A" ≠ "\x0A"
    ∧ parse_str_to_serial "0xFF" = "\x55" := by
  exact ⟨by decide, by decide, by decide, by decide, by decide⟩

/-- C10: the accumulated hex value of a window never exceeds 0xFF (it is at
most 153), so the char conversion always succeeds, its failure branch is
unreachable, and a window that passes the marker and both digit tests always
yields a decoded character. -/
theorem c10_hex_int_bounded :
    ∀ c0 c1 c2 c3 : Char,
    (((hexDigitVal c2.toNat).2 <<< 4) + (hexDigitVal c3.toNat).2 ≤ 0xFF)
    ∧ (char_from_u32 (((hexDigitVal c2.toNat).2 <<< 4) + (hexDigitVal c3.toNat).2)).isSome = true
    ∧ ((hexDigitVal c2.toNat).1 = true → (hexDigitVal c3.toNat).1 = true →
        c0 = '0' → (c1 = 'x' ∨ c1 = 'X') →
        ∃ c : Char, windowStep c0 c1 c2 c3 = some c) := by
  intro c0 c1 c2 c3
  obtain ⟨c, hc⟩ := char_from_u32_small
    (Nat.lt_of_le_of_lt (hexPair_le c2 c3) (by norm_num))
  refine ⟨Nat.le_trans (hexPair_le c2 c3) (by norm_num), by simp [hc], ?_⟩
  intro hd2 hd3 h0 h1
  refine ⟨c, ?_⟩
  simp only [windowStep, hc, hd2, hd3, h0]
  rcases h1 with h1 | h1 <;> simp [h1]

theorem c10_hex_int_bounded_witness :
    (((hexDigitVal '4'.toNat).2 <<< 4) + (hexDigitVal '1'.toNat).2 ≤ 0xFF)
    ∧ ∃ c : Char, windowStep '0' 'x' '4' '1' = some c :=
  ⟨(c10_hex_int_bounded '0' 'x' '4' '1').1,
   (c10_hex_int_bounded '0' 'x' '4' '1').2.2 (by decide) (by decide) rfl (Or.inl rfl)⟩

end SerialTermRpc
